import Mathlib

set_option maxRecDepth 10000

/-!
Verification of the directory verification-code and safe-archive-extraction
subsystem of dosocs2 (`dosocs2/util.py`), via a shallow embedding in Lean.

Path strings are modelled after CPython's `posixpath` (`join`, `normpath`,
`abspath`, `commonprefix`, `relpath`), SHA-1 is implemented concretely so that
verification codes can be computed in the kernel, and the filesystem-facing
pieces (`tarfile.is_tarfile`, per-file hashing, the directory walk) are
abstracted as explicit function parameters.
-/

namespace DoSOCS

/-! ## String primitives over the character list

Python operates on strings as sequences of code points, as does `String.data`;
these mirror `str.startswith`, `str.endswith`, `str.split('/')` and emptiness,
written by structural recursion on the character list. -/

/-- `s.startswith(pre)`. -/
def strStartsWith (s pre : String) : Bool :=
  pre.data.isPrefixOf s.data

/-- `s.endswith(suf)`. -/
def strEndsWith (s suf : String) : Bool :=
  suf.data.isSuffixOf s.data

/-- Whether `s` is the empty string. -/
def strIsEmpty (s : String) : Bool :=
  s.data.isEmpty

/-- Accumulator loop for `splitSlash`. -/
def splitSlashAux : List Char → List Char → List String
  | [], acc => [String.mk acc.reverse]
  | c :: cs, acc =>
    if c = '/' then String.mk acc.reverse :: splitSlashAux cs []
    else splitSlashAux cs (c :: acc)

/-- `s.split('/')` (equally, `splitOn "/"`). -/
def splitSlash (s : String) : List String :=
  splitSlashAux s.data []

/-! ## posixpath model -/

/-- Model of `os.path.join(a, b)` on POSIX for two arguments. -/
def pyJoin (a b : String) : String :=
  if strStartsWith b "/" then b
  else if strIsEmpty a || strEndsWith a "/" then a ++ b
  else a ++ "/" ++ b

/-- One step of CPython `posixpath.normpath`'s component loop: `comps` is the
accumulated component list, `initialSlashes` is nonzero for absolute paths. -/
def normStep (initialSlashes : Nat) (comps : List String) (comp : String) : List String :=
  if comp = "" || comp = "." then comps
  else if comp ≠ ".." || (initialSlashes = 0 && comps = []) || comps.getLast? = some ".." then
    comps ++ [comp]
  else if comps ≠ [] then comps.dropLast
  else comps

/-- Model of CPython `posixpath.normpath`: collapse `.` and empty components,
resolve `..` textually, preserve the POSIX one-or-two leading slash rule. -/
def pyNormpath (p : String) : String :=
  if strIsEmpty p then "." else
  let initialSlashes : Nat :=
    if strStartsWith p "/" then
      (if strStartsWith p "//" && !strStartsWith p "///" then 2 else 1)
    else 0
  let newComps := (splitSlash p).foldl (normStep initialSlashes) []
  let joined := String.intercalate "/" newComps
  let path := String.join (List.replicate initialSlashes "/") ++ joined
  if strIsEmpty path then "." else path

/-- Model of `os.path.abspath` on POSIX, with the working directory explicit. -/
def pyAbspath (cwd p : String) : String :=
  pyNormpath (if strStartsWith p "/" then p else pyJoin cwd p)

/-- Longest common character prefix of two character lists. -/
def commonPfxChars : List Char → List Char → List Char
  | a :: as, b :: bs => if a = b then a :: commonPfxChars as bs else []
  | _, _ => []

/-- Model of `os.path.commonprefix([a, b])`: character-wise common prefix. -/
def commonPfx (a b : String) : String :=
  String.mk (commonPfxChars a.data b.data)

/-- Length of the common leading run of two component lists (what
`os.path.commonprefix` computes on lists of path components). -/
def commonLen : List String → List String → Nat
  | a :: as, b :: bs => if a = b then commonLen as bs + 1 else 0
  | _, _ => 0

/-- Model of `os.path.relpath(p, start)` on POSIX, working directory explicit. -/
def pyRelpath (cwd p start : String) : String :=
  let pl := (splitSlash (pyAbspath cwd p)).filter (fun c => c ≠ "")
  let sl := (splitSlash (pyAbspath cwd start)).filter (fun c => c ≠ "")
  let i := commonLen sl pl
  let rel := List.replicate (sl.length - i) ".." ++ pl.drop i
  if rel.isEmpty then "." else String.intercalate "/" rel

/-! ## SHA-1, executable -/

/-- Left-rotate a 32-bit word (a `Nat` below `2 ^ 32`) by `n` bits. -/
def rotl32 (n x : Nat) : Nat :=
  ((x <<< n) ||| (x >>> (32 - n))) % 4294967296

/-- UTF-8 encoding of a single character, as a list of byte values. -/
def utf8Char (c : Char) : List Nat :=
  let n := c.toNat
  if n < 128 then [n]
  else if n < 2048 then [192 + n / 64, 128 + n % 64]
  else if n < 65536 then [224 + n / 4096, 128 + (n / 64) % 64, 128 + n % 64]
  else [240 + n / 262144, 128 + (n / 4096) % 64, 128 + (n / 64) % 64, 128 + n % 64]

/-- UTF-8 encoding of a string (model of Python `str.encode('utf-8')`). -/
def utf8Bytes (s : String) : List Nat :=
  (s.data.map utf8Char).flatten

/-- Split a byte list into 64-byte chunks; `fuel` bounds the recursion depth
(any value at least the list length gives the full chunking). -/
def chunks64Aux : Nat → List Nat → List (List Nat)
  | 0, _ => []
  | _, [] => []
  | fuel + 1, l => l.take 64 :: chunks64Aux fuel (l.drop 64)

/-- Split a byte list into 64-byte chunks. -/
def chunks64 (l : List Nat) : List (List Nat) :=
  chunks64Aux l.length l

/-- Big-endian 32-bit words from a byte list. -/
def beWords : List Nat → List Nat
  | a :: b :: c :: d :: rest => (((a * 256 + b) * 256 + c) * 256 + d) :: beWords rest
  | _ => []

/-- SHA-1 message schedule: extend 16 words to 80. -/
def sha1Schedule (w16 : List Nat) : Array Nat :=
  (List.range 64).foldl
    (fun w i =>
      w.push (rotl32 1 (Nat.xor (Nat.xor (w.getD (i + 13) 0) (w.getD (i + 8) 0))
        (Nat.xor (w.getD (i + 2) 0) (w.getD i 0)))))
    w16.toArray

/-- SHA-1 round function and constant for round `i`. -/
def sha1FK (i b c d : Nat) : Nat × Nat :=
  if i < 20 then ((b &&& c) ||| ((4294967295 - b) &&& d), 1518500249)
  else if i < 40 then (Nat.xor (Nat.xor b c) d, 1859775393)
  else if i < 60 then ((b &&& c) ||| (b &&& d) ||| (c &&& d), 2400959708)
  else (Nat.xor (Nat.xor b c) d, 3395469782)

/-- Compress one 64-byte block into the running SHA-1 state. -/
def sha1Block (h : Nat × Nat × Nat × Nat × Nat) (block : List Nat) :
    Nat × Nat × Nat × Nat × Nat :=
  let w := sha1Schedule (beWords block)
  let (h0, h1, h2, h3, h4) := h
  let res := (List.range 80).foldl
    (fun st i =>
      let (a, b, c, d, e) := st
      let fk := sha1FK i b c d
      let temp := (rotl32 5 a + fk.1 + e + fk.2 + w.getD i 0) % 4294967296
      (temp, a, rotl32 30 b, c, d))
    (h0, h1, h2, h3, h4)
  let (a, b, c, d, e) := res
  ((h0 + a) % 4294967296, (h1 + b) % 4294967296, (h2 + c) % 4294967296,
   (h3 + d) % 4294967296, (h4 + e) % 4294967296)

/-- SHA-1 of a byte list: padding then block compression; five 32-bit words. -/
def sha1 (msg : List Nat) : Nat × Nat × Nat × Nat × Nat :=
  let ml := 8 * msg.length
  let k := (120 - (msg.length + 1) % 64) % 64
  let padded := msg ++ [128] ++ List.replicate k 0 ++
    (List.range 8).map (fun i => (ml >>> (8 * (7 - i))) % 256)
  (chunks64 padded).foldl sha1Block
    (1732584193, 4023233417, 2562383102, 271733878, 3285377520)

/-- Lowercase hex digit for a value below 16. -/
def hexDigit (n : Nat) : Char :=
  if n < 10 then Char.ofNat (48 + n) else Char.ofNat (87 + n)

/-- Lowercase 8-hex-digit rendering of a 32-bit word. -/
def hex32 (x : Nat) : String :=
  String.mk ((List.range 8).map (fun i => hexDigit ((x >>> (4 * (7 - i))) % 16)))

/-- SHA-1 hex digest of a string's UTF-8 bytes (model of
`hashlib.sha1(s.encode('utf-8')).hexdigest()`). -/
def sha1Hex (s : String) : String :=
  let (a, b, c, d, e) := sha1 (utf8Bytes s)
  hex32 a ++ hex32 b ++ hex32 c ++ hex32 d ++ hex32 e

/-! ## Sorting (model of Python `sorted` on strings) -/

/-- Strict lexicographic comparison of character lists by code point — the
order Python uses to compare strings. -/
def lexLt : List Char → List Char → Bool
  | [], [] => false
  | [], _ :: _ => true
  | _ :: _, [] => false
  | a :: as, b :: bs => if a = b then lexLt as bs else decide (a < b)

theorem lexLt_irrefl (l : List Char) : lexLt l l = false := by
  induction l with
  | nil => rfl
  | cons a as ih => simp [lexLt, ih]

theorem lexLt_trans : ∀ {a b c : List Char},
    lexLt a b = true → lexLt b c = true → lexLt a c = true
  | [], [], _ :: _, _, _ => rfl
  | [], _ :: _, _ :: _, _, _ => rfl
  | a :: as, b :: bs, c :: cs, hab, hbc => by
    simp only [lexLt] at hab hbc ⊢
    by_cases h1 : a = b
    · subst h1
      by_cases h2 : a = c
      · subst h2
        simp only [if_pos rfl] at hab hbc ⊢
        exact lexLt_trans hab hbc
      · simpa [h2] using hbc
    · by_cases h2 : b = c
      · subst h2
        simpa [h1] using hab
      · simp only [if_neg h1, decide_eq_true_eq] at hab
        simp only [if_neg h2, decide_eq_true_eq] at hbc
        have hac : a < c := lt_trans hab hbc
        simp [ne_of_lt hac, hac]

theorem lexLt_connex : ∀ {a b : List Char},
    lexLt a b = false → lexLt b a = false → a = b
  | [], [], _, _ => rfl
  | [], _ :: _, h, _ => by simp [lexLt] at h
  | _ :: _, [], _, h => by simp [lexLt] at h
  | a :: as, b :: bs, hab, hba => by
    simp only [lexLt] at hab hba
    by_cases h1 : a = b
    · subst h1
      simp only [if_pos rfl] at hab hba
      exact congrArg (a :: ·) (lexLt_connex hab hba)
    · have h1' : ¬b = a := fun h => h1 h.symm
      simp only [if_neg h1, decide_eq_false_iff_not, not_lt] at hab
      simp only [if_neg h1', decide_eq_false_iff_not, not_lt] at hba
      exact absurd (le_antisymm hba hab) h1

/-- The ≤ relation Python's `sorted` orders strings by: code-point
lexicographic. -/
def StrLE (s t : String) : Prop := lexLt t.data s.data = false

instance : DecidableRel StrLE := fun s t => by
  unfold StrLE
  infer_instance

instance : IsTotal String StrLE := by
  constructor
  intro s t
  by_cases h : lexLt t.data s.data = false
  · exact Or.inl h
  · refine Or.inr ?_
    by_cases h2 : lexLt s.data t.data = false
    · exact h2
    · have h1 := eq_true_of_ne_false h
      have h2 := eq_true_of_ne_false h2
      have := lexLt_trans h1 h2
      rw [lexLt_irrefl] at this
      exact absurd this (by simp)

instance : IsTrans String StrLE := by
  constructor
  intro s t u hst htu
  unfold StrLE at hst htu ⊢
  by_cases hus : lexLt u.data s.data = true
  · by_cases htu2 : lexLt t.data u.data = true
    · have := lexLt_trans htu2 hus
      rw [this] at hst
      exact absurd hst (by simp)
    · have : t.data = u.data := lexLt_connex (Bool.eq_false_iff.mpr htu2) htu
      rw [← this] at hus
      rw [hus] at hst
      exact absurd hst (by simp)
  · exact Bool.eq_false_iff.mpr hus

instance : IsAntisymm String StrLE := by
  constructor
  intro s t hst hts
  have : t.data = s.data := lexLt_connex hst hts
  cases s
  cases t
  exact congrArg String.mk this.symm

/-- Model of Python `sorted` on a list of strings: the unique sorted
permutation under the code-point lexicographic order. -/
def sortStrs (l : List String) : List String :=
  List.insertionSort StrLE l

theorem sortStrs_perm (l : List String) : (sortStrs l).Perm l :=
  List.perm_insertionSort _ l

theorem sortStrs_congr {l₁ l₂ : List String} (h : l₁.Perm l₂) : sortStrs l₁ = sortStrs l₂ :=
  List.eq_of_perm_of_sorted ((sortStrs_perm l₁).trans (h.trans (sortStrs_perm l₂).symm))
    (List.sorted_insertionSort _ l₁) (List.sorted_insertionSort _ l₂)

/-! ## dosocs2/util.py -/

/-- `util.archive_type`: classify `path` using the two container sniffers
(`tarfile.is_tarfile`, `zipfile.is_zipfile`), modelled as boolean oracles. -/
def archive_type (is_tarfile is_zipfile : String → Bool) (path : String) : Option String :=
  if is_tarfile path then some "tar"
  else if is_zipfile path then some "zip"
  else none

/-- `is_within_directory` as defined inside `tempextract`'s tar branch:
`os.path.commonprefix([abspath(directory), abspath(target)]) == abspath(directory)`. -/
def is_within_directory (cwd directory target : String) : Bool :=
  let absDirectory := pyAbspath cwd directory
  let absTarget := pyAbspath cwd target
  commonPfx absDirectory absTarget == absDirectory

/-- The validation loop of `safe_extract`: every member's join against the
extraction root must pass `is_within_directory`; only then is `extractall`
reached. -/
def safe_extract_ok (cwd path : String) (members : List String) : Bool :=
  members.all (fun name => is_within_directory cwd path (pyJoin path name))

/-- Observable events of one `tempextract` run, in program order. -/
inductive Ev
  | mkdtemp
  | tarCheckFail
  | tarExtract
  | zipExtract
  | bodyRun
  | typeErrorRaised
  | rmtree
deriving DecidableEq

/-- How a `tempextract` run terminates. -/
inductive ExitKind
  | success
  | traversalError
  | typeError
  | callerError
deriving DecidableEq

/-- `util.tempextract` as a trace semantics. `tmp` is the fresh directory
returned by `tempfile.mkdtemp()`; `bodyOk` records whether the caller's code
inside the `with` scope runs without raising. The `finally` clause appends the
`rmtree` event on every path out of the `try` block. -/
def tempextract (cwd tmp : String) (is_tarfile is_zipfile : String → Bool)
    (path : String) (members : List String) (bodyOk : Bool) : List Ev × ExitKind :=
  let arType := archive_type is_tarfile is_zipfile path
  let core : List Ev × ExitKind :=
    if arType = some "tar" then
      if safe_extract_ok cwd tmp members then
        ([Ev.mkdtemp, Ev.tarExtract, Ev.bodyRun],
         if bodyOk then ExitKind.success else ExitKind.callerError)
      else ([Ev.mkdtemp, Ev.tarCheckFail], ExitKind.traversalError)
    else if arType = some "zip" then
      ([Ev.mkdtemp, Ev.zipExtract, Ev.bodyRun],
       if bodyOk then ExitKind.success else ExitKind.callerError)
    else ([Ev.mkdtemp, Ev.typeErrorRaised], ExitKind.typeError)
  (core.1 ++ [Ev.rmtree], core.2)

/-- `util.gen_ver_code`: SHA-1 hex of the separator-free concatenation of the
sorted input hashes with excluded ones filtered out. -/
def gen_ver_code (hashes excluded_hashes : List String) : String :=
  let hashes_less_excluded := hashes.filter (fun h => !(excluded_hashes.contains h))
  let hashblob := String.join (sortStrs hashes_less_excluded)
  sha1Hex hashblob

/-- `util.abs_to_rel`: `os.path.join(os.curdir, os.path.relpath(path, start))`. -/
def abs_to_rel (cwd startpath p : String) : String :=
  pyJoin "." (pyRelpath cwd p startpath)

/-- `util.get_dir_hashes`. The walk (`allpaths`), the per-file content hasher
(`util.sha256` reading file bytes) and the string hasher
(`hashlib.sha256(relpath.encode('utf-8')).hexdigest()`) are abstract
parameters; everything downstream of them is the source's algorithm. -/
def get_dir_hashes (walk : List String) (isfile : String → Bool)
    (contentHash strHash : String → String) (cwd rootPath : String)
    (excluded_hashes : List String) : String × List (String × String) × String :=
  let listing := sortStrs walk
  let hashes := (listing.filter (fun p => isfile p)).map (fun p => (p, contentHash p))
  let relative_listing :=
    (listing.filter (fun p => isfile p && !(excluded_hashes.contains (contentHash p)))).map
      (fun p => abs_to_rel cwd rootPath p)
  let rel_listing_hashes := (sortStrs relative_listing).map strHash
  (gen_ver_code (hashes.map Prod.snd) excluded_hashes, hashes,
   gen_ver_code rel_listing_hashes [])

/-- Model of `os.path.basename`: the part after the last slash. -/
def pyBasename (p : String) : String :=
  (splitSlash p).getLastD ""

/-- `util.file_name_for_id`: basename, non-alphanumeric characters replaced by
underscores (`re.sub` with class `A-Za-z0-9`), truncated to 20 characters. -/
def file_name_for_id (file_name : String) : String :=
  let new1 := pyBasename file_name
  (String.mk (new1.data.map (fun c => if c.isAlphanum then c else '_'))).take 20

/-- `util.gen_id_string`, with the fresh `str(uuid.uuid4())` value explicit.
`some ""` for `file_name` falls through to the uuid slice because Python's
`or` treats the empty string as false. -/
def gen_id_string (pfx : String) (file_name sha256 : Option String)
    (uuid4 : String) : String :=
  let sha256part := match sha256 with
    | none => (uuid4.drop 24).take 4
    | some s => s.take 4
  let suffix := sha256part ++ "-" ++ uuid4.take 8
  let fodder := match file_name with
    | some f => if strIsEmpty f then (uuid4.drop 9).take 30 else f
    | none => (uuid4.drop 9).take 30
  let new_file_name := file_name_for_id fodder
  String.intercalate "-" ["SPDXRef", pfx, new_file_name, suffix]

/-! ## Spec-side definitions for the traversal claim -/

/-- Follows the spec's words: the canonical destination must be equal to or a
descendant of the canonical extraction root (canonicalize-then-compare on
whole path components, not character-wise). -/
def specCanonicalWithin (cwd root target : String) : Bool :=
  let r := pyAbspath cwd root
  let t := pyAbspath cwd target
  t == r || strStartsWith t (r ++ "/")

/-- Follows the spec's words: a member name carrying a traversal payload — an
absolute path or a parent-directory (`..`) segment. -/
def hasTraversalName (name : String) : Bool :=
  strStartsWith name "/" || (splitSlash name).contains ".."

/-! ## Helper lemmas -/

theorem gen_ver_code_congr (E : List String) {H₁ H₂ : List String} (h : H₁.Perm H₂) :
    gen_ver_code H₁ E = gen_ver_code H₂ E := by
  show sha1Hex (String.join (sortStrs (H₁.filter (fun x => !(E.contains x))))) =
    sha1Hex (String.join (sortStrs (H₂.filter (fun x => !(E.contains x)))))
  rw [sortStrs_congr (h.filter _)]

theorem strIsEmpty_false {f : String} (hf : f ≠ "") : strIsEmpty f = false := by
  cases f with
  | mk data =>
    cases data with
    | nil => exact absurd rfl hf
    | cons c cs => rfl

theorem intercalate_four (a b c d : String) :
    String.intercalate "-" [a, b, c, d] = a ++ "-" ++ b ++ "-" ++ c ++ "-" ++ d := rfl

/-! ## Claims -/

/-- C1: the source's tar traversal check is `commonprefix`-based, not the
canonicalize-then-compare containment the spec mandates: the member name
`../foobar/evil` carries a parent-directory traversal sequence and resolves
outside the extraction root `/tmp/foo` (to `/tmp/foobar/evil`, a same-prefix
sibling), yet `is_within_directory` accepts it, so `tempextract` extracts the
member's bytes and exits successfully instead of failing with a
path-traversal error. -/
theorem tar_traversal_sibling_escape_accepted :
    hasTraversalName "../foobar/evil" = true ∧
    is_within_directory "/" "/tmp/foo" (pyJoin "/tmp/foo" "../foobar/evil") = true ∧
    specCanonicalWithin "/" "/tmp/foo" (pyJoin "/tmp/foo" "../foobar/evil") = false ∧
    pyAbspath "/" (pyJoin "/tmp/foo" "../foobar/evil") = "/tmp/foobar/evil" ∧
    (tempextract "/" "/tmp/foo" (fun _ => true) (fun _ => false) "evil.tar"
        ["../foobar/evil"] true).2 = ExitKind.success ∧
    Ev.tarExtract ∈ (tempextract "/" "/tmp/foo" (fun _ => true) (fun _ => false) "evil.tar"
        ["../foobar/evil"] true).1 := by
  decide

/-- C2: on every exit of the `tempextract` scope — success, traversal failure,
unsupported-archive failure, or an exception in the caller's body — the trace
contains exactly one `mkdtemp` and exactly one `rmtree`, and the `rmtree` is
the last event: the allocated temporary root is removed exactly once when the
scope exits, on every path. -/
theorem tempextract_cleanup_exactly_once (cwd tmp : String) (it iz : String → Bool)
    (path : String) (members : List String) (bodyOk : Bool) :
    (tempextract cwd tmp it iz path members bodyOk).1.count Ev.rmtree = 1 ∧
    (tempextract cwd tmp it iz path members bodyOk).1.getLast? = some Ev.rmtree ∧
    (tempextract cwd tmp it iz path members bodyOk).1.count Ev.mkdtemp = 1 := by
  unfold tempextract archive_type
  cases h1 : it path <;> cases h2 : iz path <;>
    cases h3 : safe_extract_ok cwd tmp members <;> simp

/-- C3 counterexample: for an input classified as neither tar nor zip,
`tempextract` does allocate a temporary directory — the trace is
`[mkdtemp, typeErrorRaised, rmtree]`, with the allocation preceding the
unsupported-archive failure, contradicting the claim that no
temporary-directory allocation occurs before the failure is raised. -/
theorem tempextract_nonarchive_allocates_tempdir :
    (tempextract "/" "/tmp/t0" (fun _ => false) (fun _ => false) "notes.txt" [] true).2 =
        ExitKind.typeError ∧
    (tempextract "/" "/tmp/t0" (fun _ => false) (fun _ => false) "notes.txt" [] true).1 =
      [Ev.mkdtemp, Ev.typeErrorRaised, Ev.rmtree] := by
  decide

/-- C3 amended: for every input classified as neither tar nor zip,
`tempextract` fails with the unsupported-archive `TypeError`; a temporary
directory is allocated before classification runs, and it is removed by the
`finally` clause, so the full trace is `[mkdtemp, typeErrorRaised, rmtree]`. -/
theorem tempextract_nonarchive_behavior (cwd tmp : String) (it iz : String → Bool)
    (path : String) (members : List String) (bodyOk : Bool)
    (h1 : it path = false) (h2 : iz path = false) :
    (tempextract cwd tmp it iz path members bodyOk).2 = ExitKind.typeError ∧
    (tempextract cwd tmp it iz path members bodyOk).1 =
      [Ev.mkdtemp, Ev.typeErrorRaised, Ev.rmtree] := by
  simp [tempextract, archive_type, h1, h2]

/-- Witness for the amended C3 at a concrete non-archive input. -/
theorem tempextract_nonarchive_behavior_witness :
    (tempextract "/" "/tmp/t1" (fun _ => false) (fun _ => false) "a.txt" ["m"] false).2 =
        ExitKind.typeError ∧
    (tempextract "/" "/tmp/t1" (fun _ => false) (fun _ => false) "a.txt" ["m"] false).1 =
      [Ev.mkdtemp, Ev.typeErrorRaised, Ev.rmtree] :=
  tempextract_nonarchive_behavior "/" "/tmp/t1" (fun _ => false) (fun _ => false)
    "a.txt" ["m"] false rfl rfl

/-- C4 counterexample: `gen_ver_code` does not collapse duplicates — adding a
duplicated copy of the hash string `a` changes the verification code (the
sorted concatenation is `aa` rather than `a`, and the SHA-1 digests differ). -/
theorem gen_ver_code_dup_changes_output :
    gen_ver_code ["a", "a"] [] ≠ gen_ver_code ["a"] [] := by
  decide

/-- C4 amended: `gen_ver_code` is invariant under reordering of the input
hashes and equals the SHA-1 hex digest of the separator-free concatenation of
the sorted hashes with exclusions removed, with multiplicity: duplicate
entries are retained, not collapsed as a set. -/
theorem gen_ver_code_order_invariant (H₁ H₂ E : List String) (h : H₁.Perm H₂) :
    gen_ver_code H₁ E = gen_ver_code H₂ E ∧
    gen_ver_code H₁ E =
      sha1Hex (String.join (sortStrs (H₁.filter (fun x => decide (x ∉ E))))) := by
  constructor
  · exact gen_ver_code_congr E h
  · unfold gen_ver_code
    have hfe : H₁.filter (fun x => !(E.contains x)) =
        H₁.filter (fun x => decide (x ∉ E)) := by
      apply List.filter_congr
      intro x _
      by_cases hx : x ∈ E <;> simp [hx]
    rw [hfe]

/-- Witness for the amended C4 at concrete inputs (a reordering, with one
hash excluded). -/
theorem gen_ver_code_order_invariant_witness :
    gen_ver_code ["b", "a"] ["b"] = gen_ver_code ["a", "b"] ["b"] ∧
    gen_ver_code ["b", "a"] ["b"] =
      sha1Hex (String.join (sortStrs (["b", "a"].filter (fun x => decide (x ∉ ["b"]))))) :=
  gen_ver_code_order_invariant ["b", "a"] ["a", "b"] ["b"] (by decide)

/-- C5: `get_dir_hashes` is deterministic and independent of the enumeration
order of the underlying walk: any two walks that list the same paths (in any
order) yield identical triples — verification code, hash map, and
relative-identity code. -/
theorem get_dir_hashes_walk_order_invariant (walk₁ walk₂ : List String)
    (isfile : String → Bool) (contentHash strHash : String → String)
    (cwd rootPath : String) (excl : List String) (h : walk₁.Perm walk₂) :
    get_dir_hashes walk₁ isfile contentHash strHash cwd rootPath excl =
      get_dir_hashes walk₂ isfile contentHash strHash cwd rootPath excl := by
  unfold get_dir_hashes
  rw [sortStrs_congr h]

/-- Witness for C5 at a concrete two-file tree walked in two orders. -/
theorem get_dir_hashes_walk_order_invariant_witness :
    get_dir_hashes ["/r/b", "/r/a"] (fun _ => true) (fun _ => "h") (fun s => s)
        "/" "/r" [] =
      get_dir_hashes ["/r/a", "/r/b"] (fun _ => true) (fun _ => "h") (fun s => s)
        "/" "/r" [] :=
  get_dir_hashes_walk_order_invariant ["/r/b", "/r/a"] ["/r/a", "/r/b"]
    (fun _ => true) (fun _ => "h") (fun s => s) "/" "/r" [] (by decide)

/-- C6: the third component of `get_dir_hashes` equals the verification-code
procedure applied to the string digests of the relative path strings (not
file contents) of exactly those regular files whose content hash is not
excluded — exclusions are applied before this code is computed, and the code
itself is computed with an empty exclusion set. -/
theorem get_dir_hashes_rel_code (walk : List String) (isfile : String → Bool)
    (contentHash strHash : String → String) (cwd rootPath : String)
    (excl : List String) :
    (get_dir_hashes walk isfile contentHash strHash cwd rootPath excl).2.2 =
      gen_ver_code
        ((walk.filter (fun p => isfile p && !(excl.contains (contentHash p)))).map
          (fun p => strHash (abs_to_rel cwd rootPath p))) [] := by
  simp only [get_dir_hashes]
  apply gen_ver_code_congr
  refine ((sortStrs_perm _).map strHash).trans ?_
  rw [List.map_map]
  exact ((sortStrs_perm walk).filter _).map _

/-- C7: the hash map reported by `get_dir_hashes` contains an entry for every
regular file listed by the walk, excluded or not, and the map is the same for
any two exclusion sets: exclusions filter only the computed codes, never the
reported map (and the exclusion set, a plain input, is never mutated). -/
theorem get_dir_hashes_map_unfiltered (walk : List String) (isfile : String → Bool)
    (contentHash strHash : String → String) (cwd rootPath : String)
    (excl₁ excl₂ : List String) (p : String) (hp : p ∈ walk) (hf : isfile p = true) :
    (p, contentHash p) ∈
        (get_dir_hashes walk isfile contentHash strHash cwd rootPath excl₁).2.1 ∧
    (get_dir_hashes walk isfile contentHash strHash cwd rootPath excl₁).2.1 =
      (get_dir_hashes walk isfile contentHash strHash cwd rootPath excl₂).2.1 := by
  constructor
  · show (p, contentHash p) ∈
      ((sortStrs walk).filter (fun q => isfile q)).map (fun q => (q, contentHash q))
    exact List.mem_map_of_mem _
      (List.mem_filter.mpr ⟨(sortStrs_perm walk).mem_iff.mpr hp, hf⟩)
  · rfl

/-- Witness for C7: a file whose hash is excluded still appears in the map,
and the map does not depend on the exclusion set. -/
theorem get_dir_hashes_map_unfiltered_witness :
    ("/r/a", "h1") ∈
        (get_dir_hashes ["/r/a"] (fun _ => true) (fun _ => "h1") (fun s => s)
          "/" "/r" ["h1"]).2.1 ∧
    (get_dir_hashes ["/r/a"] (fun _ => true) (fun _ => "h1") (fun s => s)
        "/" "/r" ["h1"]).2.1 =
      (get_dir_hashes ["/r/a"] (fun _ => true) (fun _ => "h1") (fun s => s)
        "/" "/r" []).2.1 :=
  get_dir_hashes_map_unfiltered ["/r/a"] (fun _ => true) (fun _ => "h1") (fun s => s)
    "/" "/r" ["h1"] [] "/r/a" (by decide) rfl

theorem sha1Hex_nil : sha1Hex "" = "da39a3ee5e6b4b0d3255bfef95601890afd80709" := by
  decide

/-- C8: on the empty collection of hashes, with any exclusion set,
`gen_ver_code` returns the SHA-1 hex digest of the empty string — a fixed,
defined value, never an error. -/
theorem gen_ver_code_empty (E : List String) :
    gen_ver_code [] E = "da39a3ee5e6b4b0d3255bfef95601890afd80709" :=
  Eq.trans (rfl : gen_ver_code [] E = sha1Hex "") sha1Hex_nil

/-- C9 counterexample: two calls to `gen_id_string` with identical arguments
and two distinct fresh uuid strings can produce the same identifier — the
identifier keeps only slices of the uuid, so uuids differing outside those
slices (here, in the last character, with a content hash supplied) collide. -/
theorem gen_id_string_uuid_collision :
    "00000000-0000-4000-8000-000000000000" ≠ "00000000-0000-4000-8000-000000000001" ∧
    gen_id_string "element" (some "x") (some "abcd")
        "00000000-0000-4000-8000-000000000000" =
      gen_id_string "element" (some "x") (some "abcd")
        "00000000-0000-4000-8000-000000000001" := by
  decide

/-- C9 amended: with a nonempty file name, the identifier is the hyphen-join
of the fixed `SPDXRef` namespace, the prefix tag, the sanitized name fragment
(basename, non-alphanumerics replaced by underscores, truncated to 20
characters), and a suffix of the hash's first 4 characters — or, when the
hash is absent, of the uuid's characters 24:28 — joined to the uuid's first
8 characters; two calls with identical arguments contain the same sanitized
fragment, and (in both the hash-present and, for 36-character uuid strings
as `str(uuid.uuid4())` produces, the hash-absent case) they differ whenever
the two fresh uuid strings differ in their first 8 characters — not for
every pair of distinct uuids. -/
theorem gen_id_string_structure (pfx f s u₁ u₂ : String)
    (hf : f ≠ "") (hu : u₁.take 8 ≠ u₂.take 8) :
    gen_id_string pfx (some f) (some s) u₁ ≠ gen_id_string pfx (some f) (some s) u₂ ∧
    gen_id_string pfx (some f) (some s) u₁ =
      "SPDXRef" ++ "-" ++ pfx ++ "-" ++ file_name_for_id f ++ "-" ++
        (s.take 4 ++ "-" ++ u₁.take 8) ∧
    gen_id_string pfx (some f) (some s) u₂ =
      "SPDXRef" ++ "-" ++ pfx ++ "-" ++ file_name_for_id f ++ "-" ++
        (s.take 4 ++ "-" ++ u₂.take 8) ∧
    gen_id_string pfx (some f) none u₁ =
      "SPDXRef" ++ "-" ++ pfx ++ "-" ++ file_name_for_id f ++ "-" ++
        ((u₁.drop 24).take 4 ++ "-" ++ u₁.take 8) ∧
    gen_id_string pfx (some f) none u₂ =
      "SPDXRef" ++ "-" ++ pfx ++ "-" ++ file_name_for_id f ++ "-" ++
        ((u₂.drop 24).take 4 ++ "-" ++ u₂.take 8) ∧
    (u₁.length = 36 → u₂.length = 36 →
      gen_id_string pfx (some f) none u₁ ≠ gen_id_string pfx (some f) none u₂) := by
  have hfe := strIsEmpty_false hf
  have struct : ∀ u : String, gen_id_string pfx (some f) (some s) u =
      "SPDXRef" ++ "-" ++ pfx ++ "-" ++ file_name_for_id f ++ "-" ++
        (s.take 4 ++ "-" ++ u.take 8) := by
    intro u
    unfold gen_id_string
    simp only [hfe, Bool.false_eq_true, if_false]
    exact intercalate_four _ _ _ _
  have structNone : ∀ u : String, gen_id_string pfx (some f) none u =
      "SPDXRef" ++ "-" ++ pfx ++ "-" ++ file_name_for_id f ++ "-" ++
        ((u.drop 24).take 4 ++ "-" ++ u.take 8) := by
    intro u
    unfold gen_id_string
    simp only [hfe, Bool.false_eq_true, if_false]
    exact intercalate_four _ _ _ _
  refine ⟨?_, struct u₁, struct u₂, structNone u₁, structNone u₂, ?_⟩
  · intro h
    rw [struct u₁, struct u₂] at h
    have hd := congrArg String.data h
    simp only [String.data_append] at hd
    have hd₁ := List.append_cancel_left hd
    have hd₂ := List.append_cancel_left hd₁
    exact hu (String.ext hd₂)
  · intro hl₁ hl₂ h
    have lenPiece : ∀ u : String, u.length = 36 →
        (((u.drop 24).take 4).data ++ "-".data).length = 5 := by
      intro u hu36
      have h36 : u.data.length = 36 := hu36
      simp [h36]
    rw [structNone u₁, structNone u₂] at h
    have hd := congrArg String.data h
    simp only [String.data_append] at hd
    have hd₁ := List.append_cancel_left hd
    have hd₂ := (List.append_inj hd₁
      ((lenPiece u₁ hl₁).trans (lenPiece u₂ hl₂).symm)).2
    exact hu (String.ext hd₂)

/-- Witness for the amended C9 at concrete inputs whose uuids differ in the
first 8 characters, covering the hash-present and hash-absent branches. -/
theorem gen_id_string_structure_witness :
    gen_id_string "element" (some "my file-1.txt") (some "abcdef")
        "11111111-0000-4000-8000-000000000000" ≠
      gen_id_string "element" (some "my file-1.txt") (some "abcdef")
        "22222222-0000-4000-8000-000000000000" ∧
    gen_id_string "element" (some "my file-1.txt") (some "abcdef")
        "11111111-0000-4000-8000-000000000000" =
      "SPDXRef" ++ "-" ++ "element" ++ "-" ++ file_name_for_id "my file-1.txt" ++ "-" ++
        ("abcdef".take 4 ++ "-" ++ "11111111-0000-4000-8000-000000000000".take 8) ∧
    gen_id_string "element" (some "my file-1.txt") (some "abcdef")
        "22222222-0000-4000-8000-000000000000" =
      "SPDXRef" ++ "-" ++ "element" ++ "-" ++ file_name_for_id "my file-1.txt" ++ "-" ++
        ("abcdef".take 4 ++ "-" ++ "22222222-0000-4000-8000-000000000000".take 8) ∧
    gen_id_string "element" (some "my file-1.txt") none
        "11111111-0000-4000-8000-000000000000" =
      "SPDXRef" ++ "-" ++ "element" ++ "-" ++ file_name_for_id "my file-1.txt" ++ "-" ++
        (("11111111-0000-4000-8000-000000000000".drop 24).take 4 ++ "-" ++
          "11111111-0000-4000-8000-000000000000".take 8) ∧
    gen_id_string "element" (some "my file-1.txt") none
        "22222222-0000-4000-8000-000000000000" =
      "SPDXRef" ++ "-" ++ "element" ++ "-" ++ file_name_for_id "my file-1.txt" ++ "-" ++
        (("22222222-0000-4000-8000-000000000000".drop 24).take 4 ++ "-" ++
          "22222222-0000-4000-8000-000000000000".take 8) ∧
    gen_id_string "element" (some "my file-1.txt") none
        "11111111-0000-4000-8000-000000000000" ≠
      gen_id_string "element" (some "my file-1.txt") none
        "22222222-0000-4000-8000-000000000000" :=
  have t := gen_id_string_structure "element" "my file-1.txt" "abcdef"
    "11111111-0000-4000-8000-000000000000" "22222222-0000-4000-8000-000000000000"
    (by decide) (by decide)
  ⟨t.1, t.2.1, t.2.2.1, t.2.2.2.1, t.2.2.2.2.1,
    t.2.2.2.2.2 (by decide) (by decide)⟩

/-- C10: `archive_type` is total over the three-way classification — always
exactly one of `some "tar"`, `some "zip"`, or `none`, with `none` (not an
error) when neither sniffer recognizes the input — and the tar check is
applied first, so anything the tar sniffer accepts is classified `tar`
regardless of the zip sniffer. -/
theorem archive_type_total_tar_first (it iz : String → Bool) (p : String) :
    (archive_type it iz p = some "tar" ∨ archive_type it iz p = some "zip" ∨
      archive_type it iz p = none) ∧
    (it p = true → archive_type it iz p = some "tar") ∧
    (it p = false → iz p = true → archive_type it iz p = some "zip") ∧
    (it p = false → iz p = false → archive_type it iz p = none) := by
  unfold archive_type
  cases h1 : it p <;> cases h2 : iz p <;> simp

/-- Witness for C10 covering all three classifications, including a file both
sniffers accept (classified tar). -/
theorem archive_type_total_tar_first_witness :
    archive_type (fun _ => true) (fun _ => true) "pkg" = some "tar" ∧
    archive_type (fun _ => false) (fun _ => true) "pkg" = some "zip" ∧
    archive_type (fun _ => false) (fun _ => false) "pkg" = none :=
  ⟨(archive_type_total_tar_first (fun _ => true) (fun _ => true) "pkg").2.1 rfl,
   (archive_type_total_tar_first (fun _ => false) (fun _ => true) "pkg").2.2.1 rfl rfl,
   (archive_type_total_tar_first (fun _ => false) (fun _ => false) "pkg").2.2.2 rfl rfl⟩

end DoSOCS
